import Mathlib

/-!
Shallow embedding of the doclinger Flask application (src/app.py).

The app is modelled as pure functions over an environment `Env` of oracles
standing for the external collaborators (filesystem existence checks, the
pdf2image rasterizer, the docling converters, the remote docling-serve
backend, the markdown-to-HTML renderer). Each route handler returns an
`HttpResult` together with the ordered list of side effects it performs
(file writes, rasterizer invocations, remote POSTs).
-/

/-- Model of os.path.join for a relative second component on POSIX. -/
def joinPath (a b : String) : String := a ++ "/" ++ b

/-- The nested output directory: output_folder = os.path.join(upload_folder, "converted"). -/
def outputFolder (uploadFolder : String) : String := joinPath uploadFolder "converted"

/-- Model of Python str.lower for the ASCII range. -/
def lowerStr (s : String) : String := String.mk (s.toList.map Char.toLower)

/-- Model of Python s.rsplit(".", 1): (part before the last dot, part after
the last dot); when no dot is present the first component is the whole string. -/
def rsplit1 (s : String) : String × String :=
  let cs := s.toList
  if cs.contains '.' then
    let after := (cs.reverse.takeWhile (fun c => c ≠ '.')).reverse
    let before := cs.take (cs.length - after.length - 1)
    (String.mk before, String.mk after)
  else (s, "")

/-- ALLOWED_EXTENSIONS = set of permitted extensions, from app.py line 31. -/
def ALLOWED_EXTENSIONS : List String := ["pdf"]

/-- allowed_file from app.py line 33: the filename contains a dot and the
lowercased part after the last dot is a permitted extension. -/
def allowed_file (filename : String) : Bool :=
  filename.toList.contains '.' && ALLOWED_EXTENSIONS.contains (lowerStr (rsplit1 filename).2)

/-- Characters kept by the werkzeug sanitizer regex [A-Za-z0-9_.-]. -/
def secureKeepChar (c : Char) : Bool :=
  (c.isAlpha || c.isDigit) || c = '_' || c = '.' || c = '-'

/-- Model of Python str.split with no argument: maximal nonempty runs of
non-whitespace characters, in order. The second argument accumulates the
current run, reversed. -/
def wordsAux : List Char → List Char → List (List Char)
  | [], cur => if cur = [] then [] else [cur.reverse]
  | c :: rest, cur =>
    if c.isWhitespace then
      if cur = [] then wordsAux rest [] else cur.reverse :: wordsAux rest []
    else wordsAux rest (c :: cur)

/-- Join character runs with a single underscore between them. -/
def joinUnderscore : List (List Char) → List Char
  | [] => []
  | [w] => w
  | w :: ws => w ++ '_' :: joinUnderscore ws

/-- Model of werkzeug.utils.secure_filename on POSIX for ASCII-normalizable
input: the NFKD-normalize-then-ascii-encode step is modelled as dropping
non-ASCII characters (exact for ASCII input), os.sep is the slash and
os.path.altsep is absent, path separators become spaces, whitespace-separated
words are joined with underscores, disallowed characters are removed and
leading and trailing dots and underscores are stripped. The Windows
device-file branch does not apply on POSIX. -/
def secure_filename (filename : String) : String :=
  let ascii := filename.toList.filter (fun c => c.toNat < 128)
  let replaced := ascii.map (fun c => if c = '/' then ' ' else c)
  let joined := joinUnderscore (wordsAux replaced [])
  let kept := joined.filter secureKeepChar
  let front := kept.dropWhile (fun c => c = '.' || c = '_')
  String.mk ((front.reverse.dropWhile (fun c => c = '.' || c = '_')).reverse)

/-- Device selector of docling AcceleratorOptions. -/
inductive AcceleratorDevice where
  | auto
  | cpu
  | cuda
  deriving DecidableEq, Repr

/-- docling AcceleratorOptions, the fields set by app.py. -/
structure AcceleratorOptions where
  num_threads : Nat := 4
  device : AcceleratorDevice := .auto
  deriving DecidableEq, Repr

/-- docling table structure options, the field touched by app.py. -/
structure TableStructureOptions where
  do_cell_matching : Bool := true
  deriving DecidableEq, Repr

/-- OCR options record: the fields of docling EasyOcrOptions touched by
app.py. `kind` distinguishes the engine; `use_gpu` is optional as in docling. -/
structure OcrOptions where
  kind : String := "easyocr"
  use_gpu : Option Bool := none
  lang : List String := ["fr", "de", "es", "en"]
  force_full_page_ocr : Bool := false
  deriving DecidableEq, Repr

/-- docling PdfPipelineOptions, restricted to the fields app.py assigns
(defaults modelled from docling). -/
structure PdfPipelineOptions where
  do_ocr : Bool := true
  do_table_structure : Bool := true
  table_structure_options : TableStructureOptions := {}
  ocr_options : OcrOptions := {}
  generate_picture_images : Bool := false
  do_picture_classification : Bool := false
  do_formula_enrichment : Bool := false
  images_scale : Nat := 1
  accelerator_options : AcceleratorOptions := {}
  deriving DecidableEq, Repr

/-- EasyOcrOptions(force_full_page_ocr=True, lang=["en"]) from app.py
lines 190 and 258. -/
def easyOcrForcedOptions : OcrOptions :=
  { kind := "easyocr", use_gpu := none, lang := ["en"], force_full_page_ocr := true }

/-- The pipeline options built identically by the easyocr and
easyocr_from_png branches of extract_markdown_from_pdf (app.py lines
180-194 and 248-262): the assignments are replayed in source order; note the
code first mutates the default ocr_options and then replaces the whole
ocr_options record, discarding the use_gpu and lang mutations. -/
def easyocrPipelineOptions : PdfPipelineOptions :=
  let p0 : PdfPipelineOptions := {}
  let p1 := { p0 with do_ocr := true, do_table_structure := true }
  let p2 := { p1 with table_structure_options :=
    { p1.table_structure_options with do_cell_matching := true } }
  let p3 := { p2 with ocr_options :=
    { p2.ocr_options with use_gpu := some false, lang := ["en"] } }
  let p4 := { p3 with
              generate_picture_images := true,
              do_picture_classification := true,
              do_formula_enrichment := true,
              images_scale := 1 }
  let p5 := { p4 with ocr_options := easyOcrForcedOptions }
  { p5 with accelerator_options := { num_threads := 4, device := .cpu } }

/-- The multipart form payload sent to the docling-serve backend. Keys the
Python dict omits are `none`. -/
structure RemotePayload where
  to_formats : List String
  image_export_mode : String
  do_ocr : Bool
  force_ocr : Option Bool := none
  ocr_engine : Option String := none
  ocr_lang : Option String := none
  abort_on_error : Bool
  return_as_file : Bool
  deriving DecidableEq, Repr

/-- Payload of the default_docling_serve branch (app.py lines 152-158). -/
def defaultServePayload : RemotePayload :=
  { to_formats := ["md", "json"]
    image_export_mode := "embedded"
    do_ocr := true
    abort_on_error := false
    return_as_file := false }

/-- Payload of the easyocr_docling_serve branch (app.py lines 212-221). -/
def easyocrServePayload : RemotePayload :=
  { to_formats := ["md", "json"]
    image_export_mode := "embedded"
    do_ocr := true
    force_ocr := some true
    ocr_engine := some "easyocr"
    ocr_lang := some "en"
    abort_on_error := false
    return_as_file := false }

/-- The fixed remote backend address (app.py lines 151 and 211). -/
def docling_serve_url : String := "http://0.0.0.0:5001/v1alpha/convert/file"

/-- Contents written to disk by the handlers. -/
inductive FileData where
  | png (page : Nat)
  | text (s : String)
  | jsonData (s : String)
  | blob (s : String)
  deriving DecidableEq, Repr

/-- Observable side effects, in the order the handlers perform them. -/
inductive Effect where
  | fileWrite (path : String) (data : FileData)
  | rasterCall (path : String) (size : Option (Nat × Option Nat))
  | remotePost (url : String) (payload : RemotePayload)
  deriving DecidableEq, Repr

/-- Flask responses and aborts produced by the handlers. -/
inductive HttpResult where
  | notFound
  | badRequest (description : String)
  | internalError (description : String)
  | fromDirectory (dir filename : String) (mime : Option String)
  | sendFile (path : String) (mime : Option String)
  | html (content : String)
  deriving DecidableEq, Repr

/-- Abort outcomes of extract_markdown_from_pdf. -/
inductive AbortErr where
  | badRequest (description : String)
  | internalError (description : String)
  deriving DecidableEq, Repr

/-- Lift an abort into the HTTP response it produces. -/
def abortResult : AbortErr → HttpResult
  | .badRequest d => .badRequest d
  | .internalError d => .internalError d

/-- Environment of external collaborators: the upload directory created at
process start, filesystem existence, the pdf2image rasterizer (argument is
the optional size, pages are abstract ids), the local docling converters,
the remote docling-serve backend (status, md_content and json_content keyed
by the payload), and the markdown renderer. -/
structure Env where
  uploadFolder : String
  fileExists : String → Bool
  rasterize : String → Option (Nat × Option Nat) → List Nat
  defaultConvert : String → String
  ocrConvert : PdfPipelineOptions → String → String
  remoteStatus : RemotePayload → Nat
  remoteMd : RemotePayload → String
  remoteJson : RemotePayload → String
  mdToHtml : String → String

/-- Query string of the /converted route; absent parameters are none. -/
structure QueryArgs where
  format : Option String := none
  render : Option String := none
  technique : Option String := none
  deriving DecidableEq, Repr

/-- Multipart upload request: whether the form has a field named document,
the submitted filename and the file bytes. -/
structure UploadRequest where
  hasDocument : Bool
  filename : String
  content : String
  deriving DecidableEq, Repr

/-- Outcome of the /upload handler: a 400 with a message, or the success
page rendered with the stored filename and its base name. -/
inductive UploadResult where
  | badRequest (message : String)
  | success (filename base_name : String)
  deriving DecidableEq, Repr

/-- upload_file (app.py lines 40-65). FileStorage truthiness reduces to a
nonempty filename, which the preceding check already guarantees. -/
def upload_file (env : Env) (req : UploadRequest) : UploadResult × List Effect :=
  if req.hasDocument = false then (.badRequest "No file part", [])
  else if req.filename = "" then (.badRequest "No selected file", [])
  else if allowed_file req.filename then
    let filename := secure_filename req.filename
    let file_path := joinPath env.uploadFolder filename
    let base_name := (rsplit1 filename).1
    (.success filename base_name, [.fileWrite file_path (.blob req.content)])
  else (.badRequest "Invalid file format. Only PDF files are allowed.", [])

/-- extract_markdown_from_pdf (app.py lines 135-273). Returns the markdown
text or the abort, together with the effects performed before returning. -/
def extract_markdown_from_pdf (env : Env) (pdf_path base_name technique : String) :
    Except AbortErr String × List Effect :=
  if technique = "default" then
    (.ok (env.defaultConvert pdf_path), [])
  else if technique = "default_docling_serve" then
    let post := Effect.remotePost docling_serve_url defaultServePayload
    if env.remoteStatus defaultServePayload ≠ 200 then
      (.error (.internalError "Error converting with docling-serve backend"), [post])
    else
      let json_path := joinPath env.uploadFolder (base_name ++ "_" ++ technique ++ ".json")
      (.ok (env.remoteMd defaultServePayload),
        [post, .fileWrite json_path (.jsonData (env.remoteJson defaultServePayload))])
  else if technique = "easyocr" then
    (.ok (env.ocrConvert easyocrPipelineOptions pdf_path), [])
  else if technique = "easyocr_docling_serve" then
    let post := Effect.remotePost docling_serve_url easyocrServePayload
    if env.remoteStatus easyocrServePayload ≠ 200 then
      (.error (.internalError "Error converting with docling-serve backend"), [post])
    else
      let json_path := joinPath env.uploadFolder (base_name ++ "_" ++ technique ++ ".json")
      (.ok (env.remoteMd easyocrServePayload),
        [post, .fileWrite json_path (.jsonData (env.remoteJson easyocrServePayload))])
  else if technique = "easyocr_from_png" then
    let image_path := pdf_path ++ ".png"
    match env.rasterize pdf_path none with
    | [] =>
      (.error (.internalError "Error converting PDF to PNG"), [.rasterCall pdf_path none])
    | pg :: _ =>
      (.ok (env.ocrConvert easyocrPipelineOptions image_path),
        [.rasterCall pdf_path none, .fileWrite image_path (.png pg)])
  else
    (.error (.badRequest "Unsupported technique"), [])

/-- Head of the HTML wrapper built in the render branch (app.py lines
102-122); indentation of the Python f-string is not reproduced. -/
def htmlHead : String :=
  "<!doctype html>\n<html lang=\"en\">\n<head>\n<meta charset=\"UTF-8\">\n<title>Rendered Markdown</title>\n<style>\nbody \x7b\nfont-family: sans-serif;\npadding: 1em;\nmax-width: 700px;\nmargin: auto;\nbackground-color: white;\nfont-size: 75%;\n\x7d\nh1, h2, h3 \x7b color: #333; \x7d\npre \x7b background-color: #f4f4f4; padding: 0.5em; \x7d\ncode \x7b background-color: #f0f0f0; padding: 2px 4px; \x7d\n</style>\n</head>\n<body>\n"

/-- Tail of the HTML wrapper (app.py lines 123-125). -/
def htmlTail : String := "\n</body>\n</html>\n"

/-- serve_converted_file (app.py lines 68-132). -/
def serve_converted_file (env : Env) (base_name : String) (args : QueryArgs) :
    HttpResult × List Effect :=
  let file_format := args.format.getD "png"
  let render := lowerStr (args.render.getD "false") = "true"
  let technique := args.technique.getD "default"
  let file_path := joinPath env.uploadFolder (base_name ++ ".pdf")
  if env.fileExists file_path = false then (.notFound, [])
  else if file_format = "png" then
    let image_filename := base_name ++ ".png"
    let image_path := joinPath (outputFolder env.uploadFolder) image_filename
    match env.rasterize file_path (some (600, none)) with
    | [] =>
      (.internalError "Error converting PDF to PNG",
        [.rasterCall file_path (some (600, none))])
    | pg :: _ =>
      (.fromDirectory (outputFolder env.uploadFolder) image_filename none,
        [.rasterCall file_path (some (600, none)), .fileWrite image_path (.png pg)])
  else if file_format = "markdown" then
    let markdown_filename := base_name ++ ".md"
    let markdown_path := joinPath (outputFolder env.uploadFolder) markdown_filename
    match extract_markdown_from_pdf env file_path base_name technique with
    | (.error e, effects) => (abortResult e, effects)
    | (.ok markdown_text, effects) =>
      let effects2 := effects ++ [Effect.fileWrite markdown_path (.text markdown_text)]
      if render then
        (.html (htmlHead ++ env.mdToHtml markdown_text ++ htmlTail), effects2)
      else
        (.fromDirectory (outputFolder env.uploadFolder) markdown_filename (some "text/plain"),
          effects2)
  else
    (.badRequest "Unsupported format", [])

/-- serve_docling_json (app.py lines 275-282). -/
def serve_docling_json (env : Env) (base_name technique : String) : HttpResult :=
  let json_path := joinPath env.uploadFolder (base_name ++ "_" ++ technique ++ ".json")
  if env.fileExists json_path = false then .notFound
  else .sendFile json_path (some "application/json")

/-- Apply one effect to a modelled filesystem (only writes change it). -/
def applyEffect (fs : String → Option FileData) : Effect → (String → Option FileData)
  | .fileWrite p d => fun q => if q = p then some d else fs q
  | .rasterCall _ _ => fs
  | .remotePost _ _ => fs

/-- Apply a trace of effects in order to a modelled filesystem. -/
def applyEffects (effects : List Effect) (fs : String → Option FileData) :
    String → Option FileData :=
  effects.foldl applyEffect fs

/-- A concrete environment for witnesses: every file exists, rasterization
yields one page with id 7, the remote backend answers 200. -/
def sampleEnv : Env :=
  { uploadFolder := "/tmp/up"
    fileExists := fun _ => true
    rasterize := fun _ _ => [7]
    defaultConvert := fun p => "md-default:" ++ p
    ocrConvert := fun _ p => "md-ocr:" ++ p
    remoteStatus := fun _ => 200
    remoteMd := fun _ => "remote-md"
    remoteJson := fun _ => "remote-json"
    mdToHtml := fun s => "<p>" ++ s ++ "</p>" }

/-- Like sampleEnv but no file exists. -/
def envAbsent : Env := { sampleEnv with fileExists := fun _ => false }

/-- Like sampleEnv but the remote backend answers 201. -/
def env201 : Env := { sampleEnv with remoteStatus := fun _ => 201 }

/-- C1 counterexample: with the source PDF present, a markdown conversion
request with technique tesseract is rejected with BadRequest instead of
running a local OCR pipeline. -/
theorem c1_counterexample :
    sampleEnv.fileExists (joinPath sampleEnv.uploadFolder ("report" ++ ".pdf")) = true ∧
    serve_converted_file sampleEnv "report"
      { format := some "markdown", render := none, technique := some "tesseract" } =
      (.badRequest "Unsupported technique", []) :=
  ⟨rfl, rfl⟩

/-- C1 (amended): tesseract is not among the recognized techniques; for every
markdown conversion request with technique tesseract whose source PDF exists,
the dispatcher rejects the request with BadRequest and performs no effects. -/
theorem c1_tesseract_rejected (env : Env) (base : String) (args : QueryArgs)
    (hf : args.format = some "markdown") (ht : args.technique = some "tesseract")
    (he : env.fileExists (joinPath env.uploadFolder (base ++ ".pdf")) = true) :
    serve_converted_file env base args = (.badRequest "Unsupported technique", []) := by
  obtain ⟨f, r, t⟩ := args
  simp only at hf ht
  subst hf ht
  simp [serve_converted_file, he, extract_markdown_from_pdf, abortResult]

/-- C1 witness: the amended theorem applied to the sample environment. -/
theorem c1_witness :
    sampleEnv.fileExists (joinPath sampleEnv.uploadFolder ("report" ++ ".pdf")) = true ∧
    serve_converted_file sampleEnv "report"
      { format := some "markdown", render := none, technique := some "tesseract" } =
      (.badRequest "Unsupported technique", []) ∧ True :=
  ⟨rfl, c1_tesseract_rejected sampleEnv "report" _ rfl rfl rfl, trivial⟩

/-- C2 counterexample: a request with format xml yields NotFound, not
BadRequest, when the source PDF is absent; the same request yields BadRequest
when the source exists, so the response is not 400 regardless of existence. -/
theorem c2_counterexample :
    serve_converted_file envAbsent "report"
      { format := some "xml", render := none, technique := none } = (.notFound, []) ∧
    serve_converted_file sampleEnv "report"
      { format := some "xml", render := none, technique := none } =
      (.badRequest "Unsupported format", []) :=
  ⟨rfl, rfl⟩

/-- C2 (amended): for a format that is neither png nor markdown, the handler
responds BadRequest when the source PDF exists and NotFound when it does not
(the existence check runs first). -/
theorem c2_format_check (env : Env) (base : String) (args : QueryArgs) (f : String)
    (hf : args.format = some f) (hp : f ≠ "png") (hm : f ≠ "markdown") :
    serve_converted_file env base args =
      (if env.fileExists (joinPath env.uploadFolder (base ++ ".pdf")) = true then
        (.badRequest "Unsupported format", []) else (.notFound, [])) := by
  obtain ⟨q, r, t⟩ := args
  simp only at hf
  subst hf
  cases he : env.fileExists (joinPath env.uploadFolder (base ++ ".pdf")) <;>
    simp [serve_converted_file, he, hp, hm]

/-- C2 witness: the amended theorem applied to format xml in the sample
environment. -/
theorem c2_witness :
    ("xml" ≠ "png" ∧ "xml" ≠ "markdown") ∧
    serve_converted_file sampleEnv "report"
      { format := some "xml", render := none, technique := none } =
      (if sampleEnv.fileExists (joinPath sampleEnv.uploadFolder ("report" ++ ".pdf")) = true
        then (.badRequest "Unsupported format", []) else (.notFound, [])) :=
  ⟨⟨by decide, by decide⟩,
    c2_format_check sampleEnv "report" _ "xml" rfl (by decide) (by decide)⟩

/-- C3 counterexample: the payload posted by the default_docling_serve branch
has do_ocr set to true, so the forwarding does request OCR. -/
theorem c3_counterexample :
    (extract_markdown_from_pdf sampleEnv "/tmp/up/report.pdf" "report"
      "default_docling_serve").2.head? =
      some (.remotePost docling_serve_url defaultServePayload) ∧
    ¬ defaultServePayload.do_ocr = false :=
  ⟨rfl, by decide⟩

/-- C3 (amended): the default_docling_serve branch posts defaultServePayload,
which sets do_ocr true like easyocr_docling_serve but omits the force_ocr,
ocr_engine and ocr_lang keys; the contrast with easyocr_docling_serve is that
the latter additionally requests forced OCR with the easyocr engine. -/
theorem c3_payload (env : Env) (p b : String) :
    (extract_markdown_from_pdf env p b "default_docling_serve").2.head? =
      some (.remotePost docling_serve_url defaultServePayload) ∧
    defaultServePayload.do_ocr = true ∧
    defaultServePayload.force_ocr = none ∧
    defaultServePayload.ocr_engine = none ∧
    defaultServePayload.ocr_lang = none ∧
    easyocrServePayload.do_ocr = true ∧
    easyocrServePayload.force_ocr = some true ∧
    easyocrServePayload.ocr_engine = some "easyocr" ∧
    easyocrServePayload.ocr_lang = some "en" := by
  refine ⟨?_, by decide, by decide, by decide, by decide, by decide, by decide, by decide,
    by decide⟩
  by_cases h : env.remoteStatus defaultServePayload = 200 <;>
    simp [extract_markdown_from_pdf, h]

/-- C4 counterexample: the JSON side artifact of default_docling_serve is
written to the upload area root, which is a different path from the
converted output directory the claim names. -/
theorem c4_counterexample :
    (extract_markdown_from_pdf sampleEnv "/tmp/up/report.pdf" "report"
      "default_docling_serve").2 =
      [.remotePost docling_serve_url defaultServePayload,
       .fileWrite "/tmp/up/report_default_docling_serve.json" (.jsonData "remote-json")] ∧
    "/tmp/up/report_default_docling_serve.json" ≠
      joinPath (outputFolder sampleEnv.uploadFolder) "report_default_docling_serve.json" :=
  ⟨rfl, by decide⟩

/-- C4 (amended): on a 200 backend response each docling_serve branch writes
its JSON side artifact to upload_folder/<base>_<technique>.json, the root of
the upload area rather than its converted/ subdirectory, and for every
technique serve_docling_json serves exactly that upload-area path when it
exists. -/
theorem c4_json_location (env : Env) (p base : String)
    (h200d : env.remoteStatus defaultServePayload = 200)
    (h200e : env.remoteStatus easyocrServePayload = 200) :
    (extract_markdown_from_pdf env p base "default_docling_serve").2 =
      [.remotePost docling_serve_url defaultServePayload,
       .fileWrite (joinPath env.uploadFolder (base ++ "_" ++ "default_docling_serve" ++ ".json"))
         (.jsonData (env.remoteJson defaultServePayload))] ∧
    (extract_markdown_from_pdf env p base "easyocr_docling_serve").2 =
      [.remotePost docling_serve_url easyocrServePayload,
       .fileWrite (joinPath env.uploadFolder (base ++ "_" ++ "easyocr_docling_serve" ++ ".json"))
         (.jsonData (env.remoteJson easyocrServePayload))] ∧
    (∀ t, serve_docling_json env base t =
      (if env.fileExists (joinPath env.uploadFolder (base ++ "_" ++ t ++ ".json")) = true
        then .sendFile (joinPath env.uploadFolder (base ++ "_" ++ t ++ ".json"))
          (some "application/json")
        else .notFound)) := by
  refine ⟨?_, ?_, ?_⟩
  · simp [extract_markdown_from_pdf, h200d]
  · simp [extract_markdown_from_pdf, h200e]
  · intro t
    cases he : env.fileExists (joinPath env.uploadFolder (base ++ "_" ++ t ++ ".json")) <;>
      simp [serve_docling_json, he]

/-- C4 witness: the amended theorem applied to the sample environment, with
the serving conjunct instantiated at both docling_serve techniques. -/
theorem c4_witness :
    sampleEnv.remoteStatus defaultServePayload = 200 ∧
    sampleEnv.remoteStatus easyocrServePayload = 200 ∧
    (extract_markdown_from_pdf sampleEnv "/tmp/up/report.pdf" "report"
        "default_docling_serve").2 =
      [.remotePost docling_serve_url defaultServePayload,
       .fileWrite
         (joinPath sampleEnv.uploadFolder ("report" ++ "_" ++ "default_docling_serve" ++ ".json"))
         (.jsonData (sampleEnv.remoteJson defaultServePayload))] ∧
    (extract_markdown_from_pdf sampleEnv "/tmp/up/report.pdf" "report"
        "easyocr_docling_serve").2 =
      [.remotePost docling_serve_url easyocrServePayload,
       .fileWrite
         (joinPath sampleEnv.uploadFolder ("report" ++ "_" ++ "easyocr_docling_serve" ++ ".json"))
         (.jsonData (sampleEnv.remoteJson easyocrServePayload))] ∧
    serve_docling_json sampleEnv "report" "default_docling_serve" =
      (if sampleEnv.fileExists
          (joinPath sampleEnv.uploadFolder
            ("report" ++ "_" ++ "default_docling_serve" ++ ".json")) = true
        then .sendFile
          (joinPath sampleEnv.uploadFolder
            ("report" ++ "_" ++ "default_docling_serve" ++ ".json"))
          (some "application/json")
        else .notFound) ∧
    serve_docling_json sampleEnv "report" "easyocr_docling_serve" =
      (if sampleEnv.fileExists
          (joinPath sampleEnv.uploadFolder
            ("report" ++ "_" ++ "easyocr_docling_serve" ++ ".json")) = true
        then .sendFile
          (joinPath sampleEnv.uploadFolder
            ("report" ++ "_" ++ "easyocr_docling_serve" ++ ".json"))
          (some "application/json")
        else .notFound) := by
  have h := c4_json_location sampleEnv "/tmp/up/report.pdf" "report" rfl rfl
  exact ⟨rfl, rfl, h.1, h.2.1, h.2.2 "default_docling_serve", h.2.2 "easyocr_docling_serve"⟩

/-- C5 counterexample: a backend response with status 201, which is a 2xx
success status, makes the default_docling_serve branch abort with
InternalError instead of returning the markdown. -/
theorem c5_counterexample :
    (extract_markdown_from_pdf env201 "/tmp/up/report.pdf" "report"
      "default_docling_serve").1 =
      .error (.internalError "Error converting with docling-serve backend") ∧
    200 ≤ 201 ∧ 201 < 300 :=
  ⟨rfl, by decide, by decide⟩

/-- C5 (amended): both docling-serve branches abort with InternalError
exactly when the backend status differs from 200, and return the markdown
from the response only on status exactly 200. -/
theorem c5_status200 (env : Env) (p b : String) :
    ((extract_markdown_from_pdf env p b "default_docling_serve").1 =
      if env.remoteStatus defaultServePayload ≠ 200 then
        .error (.internalError "Error converting with docling-serve backend")
      else .ok (env.remoteMd defaultServePayload)) ∧
    ((extract_markdown_from_pdf env p b "easyocr_docling_serve").1 =
      if env.remoteStatus easyocrServePayload ≠ 200 then
        .error (.internalError "Error converting with docling-serve backend")
      else .ok (env.remoteMd easyocrServePayload)) := by
  constructor
  · by_cases h : env.remoteStatus defaultServePayload = 200 <;>
      simp [extract_markdown_from_pdf, h]
  · by_cases h : env.remoteStatus easyocrServePayload = 200 <;>
      simp [extract_markdown_from_pdf, h]

/-- C6: the upload handler responds 400 with no file written exactly when
the document field is absent, the submitted filename is empty, or
allowed_file rejects the filename (no dot, or the lowercased extension is
not a permitted one, pdf being the only one); in every other case it
responds success and writes exactly one file into the upload area. -/
theorem c6_upload_validation (env : Env) (req : UploadRequest) :
    ((∃ m, upload_file env req = (.badRequest m, [])) ↔
      (req.hasDocument = false ∨ req.filename = "" ∨ allowed_file req.filename = false)) ∧
    (req.hasDocument = true → req.filename ≠ "" → allowed_file req.filename = true →
      ∃ fn bn, upload_file env req =
        (.success fn bn, [.fileWrite (joinPath env.uploadFolder fn) (.blob req.content)])) := by
  constructor
  · constructor
    · intro ⟨m, hm⟩
      by_cases h1 : req.hasDocument = false
      · exact Or.inl h1
      · by_cases h2 : req.filename = ""
        · exact Or.inr (Or.inl h2)
        · by_cases h3 : allowed_file req.filename = false
          · exact Or.inr (Or.inr h3)
          · exfalso
            simp only [Bool.not_eq_false] at h1 h3
            simp [upload_file, h1, h2, h3] at hm
    · intro h
      rcases h with h1 | h2 | h3
      · exact ⟨"No file part", by simp [upload_file, h1]⟩
      · cases h1 : req.hasDocument
        · exact ⟨"No file part", by simp [upload_file, h1]⟩
        · exact ⟨"No selected file", by simp [upload_file, h1, h2]⟩
      · cases h1 : req.hasDocument
        · exact ⟨"No file part", by simp [upload_file, h1]⟩
        · by_cases h2 : req.filename = ""
          · exact ⟨"No selected file", by simp [upload_file, h1, h2]⟩
          · exact ⟨"Invalid file format. Only PDF files are allowed.",
              by simp [upload_file, h1, h2, h3]⟩
  · intro h1 h2 h3
    exact ⟨secure_filename req.filename, (rsplit1 (secure_filename req.filename)).1,
      by simp [upload_file, h1, h2, h3]⟩

/-- C6 witness: uploading notes.txt is rejected with no file written, and
uploading report.pdf is saved. -/
theorem c6_witness :
    (∃ m, upload_file sampleEnv
      { hasDocument := true, filename := "notes.txt", content := "data" } =
      (.badRequest m, [])) ∧
    allowed_file "notes.txt" = false ∧
    (∃ fn bn, upload_file sampleEnv
      { hasDocument := true, filename := "report.pdf", content := "binary" } =
      (.success fn bn, [.fileWrite (joinPath sampleEnv.uploadFolder fn) (.blob "binary")])) :=
  ⟨(c6_upload_validation sampleEnv _).1.mpr (Or.inr (Or.inr (by decide))),
    by decide,
    (c6_upload_validation sampleEnv _).2 rfl (by decide) (by decide)⟩

/-- C7: a successful upload stores the file at upload_folder/<sanitized
filename> and responds with that sanitized filename together with its base
name, the sanitized filename with the extension after the last dot removed. -/
theorem c7_upload_success (env : Env) (req : UploadRequest)
    (h1 : req.hasDocument = true) (h2 : req.filename ≠ "")
    (h3 : allowed_file req.filename = true) :
    upload_file env req =
      (.success (secure_filename req.filename) ((rsplit1 (secure_filename req.filename)).1),
        [.fileWrite (joinPath env.uploadFolder (secure_filename req.filename))
          (.blob req.content)]) := by
  simp [upload_file, h1, h2, h3]

/-- C7 witness: uploading report.pdf yields the sanitized filename
report.pdf, base name report, and the file saved at /tmp/up/report.pdf. -/
theorem c7_witness :
    allowed_file "report.pdf" = true ∧
    secure_filename "report.pdf" = "report.pdf" ∧
    (rsplit1 "report.pdf").1 = "report" ∧
    upload_file sampleEnv { hasDocument := true, filename := "report.pdf", content := "binary" } =
      (.success "report.pdf" "report", [.fileWrite "/tmp/up/report.pdf" (.blob "binary")]) :=
  ⟨by decide, by decide, by decide,
    (c7_upload_success sampleEnv
      { hasDocument := true, filename := "report.pdf", content := "binary" }
      rfl (by decide) (by decide)).trans (by decide)⟩

/-- C8: for format png with the source PDF present, the handler calls the
rasterizer on the source with target width 600 and auto height, and either
aborts with InternalError when no pages come back, or writes the first page
to output_folder/<base>.png and serves that file from the output folder. -/
theorem c8_png_route (env : Env) (base : String) (args : QueryArgs)
    (hf : args.format = some "png")
    (he : env.fileExists (joinPath env.uploadFolder (base ++ ".pdf")) = true) :
    serve_converted_file env base args =
      (match env.rasterize (joinPath env.uploadFolder (base ++ ".pdf")) (some (600, none)) with
       | [] => (.internalError "Error converting PDF to PNG",
           [.rasterCall (joinPath env.uploadFolder (base ++ ".pdf")) (some (600, none))])
       | pg :: _ => (.fromDirectory (outputFolder env.uploadFolder) (base ++ ".png") none,
           [.rasterCall (joinPath env.uploadFolder (base ++ ".pdf")) (some (600, none)),
            .fileWrite (joinPath (outputFolder env.uploadFolder) (base ++ ".png"))
              (.png pg)])) := by
  obtain ⟨f, r, t⟩ := args
  simp only at hf
  subst hf
  cases hR : env.rasterize (joinPath env.uploadFolder (base ++ ".pdf")) (some (600, none)) <;>
    simp [serve_converted_file, he, hR]

/-- C8 witness: the theorem applied to the sample environment, whose
rasterizer yields one page with id 7. -/
theorem c8_witness :
    sampleEnv.fileExists (joinPath sampleEnv.uploadFolder ("report" ++ ".pdf")) = true ∧
    sampleEnv.rasterize (joinPath sampleEnv.uploadFolder ("report" ++ ".pdf"))
      (some (600, none)) = [7] ∧
    serve_converted_file sampleEnv "report"
      { format := some "png", render := none, technique := none } =
      (.fromDirectory (outputFolder sampleEnv.uploadFolder) ("report" ++ ".png") none,
        [.rasterCall (joinPath sampleEnv.uploadFolder ("report" ++ ".pdf")) (some (600, none)),
         .fileWrite (joinPath (outputFolder sampleEnv.uploadFolder) ("report" ++ ".png"))
           (.png 7)]) :=
  ⟨rfl, rfl,
    (c8_png_route sampleEnv "report"
      { format := some "png", render := none, technique := none } rfl rfl).trans (by decide)⟩

/-- For a markdown conversion whose extraction succeeds, the last effect of
the request is the write of the markdown artifact at
output_folder/<base>.md, whatever the technique was. -/
theorem serve_markdown_writes (env : Env) (base : String) (args : QueryArgs) (md : String)
    (hf : args.format = some "markdown")
    (he : env.fileExists (joinPath env.uploadFolder (base ++ ".pdf")) = true)
    (hok : (extract_markdown_from_pdf env (joinPath env.uploadFolder (base ++ ".pdf")) base
      (args.technique.getD "default")).1 = .ok md) :
    (serve_converted_file env base args).2.getLast? =
      some (.fileWrite (joinPath (outputFolder env.uploadFolder) (base ++ ".md"))
        (.text md)) := by
  obtain ⟨f, r, t⟩ := args
  simp only at hf hok
  subst hf
  rcases hE : extract_markdown_from_pdf env (joinPath env.uploadFolder (base ++ ".pdf")) base
      (t.getD "default") with ⟨res, effs⟩
  rw [hE] at hok
  simp only at hok
  subst hok
  simp [serve_converted_file, he, hE]
  split <;> simp [List.getLast?_concat]

/-- C9: the markdown artifact path is keyed by the base name alone: two
markdown conversion requests for the same base name with different
techniques both write their result to the single path
output_folder/<base>.md, overwriting one another. -/
theorem c9_markdown_single_path (env : Env) (base : String) (a1 a2 : QueryArgs)
    (m1 m2 : String)
    (hf1 : a1.format = some "markdown") (hf2 : a2.format = some "markdown")
    (he : env.fileExists (joinPath env.uploadFolder (base ++ ".pdf")) = true)
    (h1 : (extract_markdown_from_pdf env (joinPath env.uploadFolder (base ++ ".pdf")) base
      (a1.technique.getD "default")).1 = .ok m1)
    (h2 : (extract_markdown_from_pdf env (joinPath env.uploadFolder (base ++ ".pdf")) base
      (a2.technique.getD "default")).1 = .ok m2) :
    (serve_converted_file env base a1).2.getLast? =
      some (.fileWrite (joinPath (outputFolder env.uploadFolder) (base ++ ".md")) (.text m1)) ∧
    (serve_converted_file env base a2).2.getLast? =
      some (.fileWrite (joinPath (outputFolder env.uploadFolder) (base ++ ".md")) (.text m2)) :=
  ⟨serve_markdown_writes env base a1 m1 hf1 he h1,
   serve_markdown_writes env base a2 m2 hf2 he h2⟩

/-- C9 witness: in the sample environment, a default-technique request and an
easyocr request for the same base name both write to the one path
/tmp/up/converted/report.md. -/
theorem c9_witness :
    sampleEnv.fileExists (joinPath sampleEnv.uploadFolder ("report" ++ ".pdf")) = true ∧
    (serve_converted_file sampleEnv "report"
      { format := some "markdown", render := none, technique := none }).2.getLast? =
      some (.fileWrite (joinPath (outputFolder sampleEnv.uploadFolder) ("report" ++ ".md"))
        (.text "md-default:/tmp/up/report.pdf")) ∧
    (serve_converted_file sampleEnv "report"
      { format := some "markdown", render := none, technique := some "easyocr" }).2.getLast? =
      some (.fileWrite (joinPath (outputFolder sampleEnv.uploadFolder) ("report" ++ ".md"))
        (.text "md-ocr:/tmp/up/report.pdf")) := by
  refine ⟨rfl, ?_, ?_⟩
  · exact (c9_markdown_single_path sampleEnv "report"
      { format := some "markdown", render := none, technique := none }
      { format := some "markdown", render := none, technique := some "easyocr" }
      "md-default:/tmp/up/report.pdf" "md-ocr:/tmp/up/report.pdf"
      rfl rfl rfl rfl rfl).1
  · exact (c9_markdown_single_path sampleEnv "report"
      { format := some "markdown", render := none, technique := none }
      { format := some "markdown", render := none, technique := some "easyocr" }
      "md-default:/tmp/up/report.pdf" "md-ocr:/tmp/up/report.pdf"
      rfl rfl rfl rfl rfl).2

/-- C10: for every markdown conversion with technique easyocr_from_png whose
source PDF exists, whatever the render flag: the handler rasterizes the
source with no size bound; if no pages come back it aborts with
InternalError, otherwise it writes the intermediate first-page PNG at
upload_folder/<base>.pdf.png, inside the upload area and not at the
corresponding output-area path, never removes it, and feeds the OCR
converter that image path instead of the source PDF. -/
theorem c10_easyocr_from_png (env : Env) (base : String) (args : QueryArgs)
    (hf : args.format = some "markdown") (ht : args.technique = some "easyocr_from_png")
    (he : env.fileExists (joinPath env.uploadFolder (base ++ ".pdf")) = true) :
    (match env.rasterize (joinPath env.uploadFolder (base ++ ".pdf")) none with
     | [] => serve_converted_file env base args =
         (.internalError "Error converting PDF to PNG",
           [.rasterCall (joinPath env.uploadFolder (base ++ ".pdf")) none])
     | pg :: _ =>
         (serve_converted_file env base args).2 =
           [.rasterCall (joinPath env.uploadFolder (base ++ ".pdf")) none,
            .fileWrite (joinPath env.uploadFolder (base ++ ".pdf") ++ ".png") (.png pg),
            .fileWrite (joinPath (outputFolder env.uploadFolder) (base ++ ".md"))
              (.text (env.ocrConvert easyocrPipelineOptions
                (joinPath env.uploadFolder (base ++ ".pdf") ++ ".png")))] ∧
         applyEffects (serve_converted_file env base args).2 (fun _ => none)
           (joinPath env.uploadFolder (base ++ ".pdf") ++ ".png") = some (.png pg)) ∧
    joinPath env.uploadFolder (base ++ ".pdf") ++ ".png" =
      joinPath env.uploadFolder (base ++ ".pdf.png") ∧
    joinPath env.uploadFolder (base ++ ".pdf.png") ≠
      joinPath (outputFolder env.uploadFolder) (base ++ ".pdf.png") := by
  obtain ⟨f, r, t⟩ := args
  simp only at hf ht
  subst hf ht
  have hne : joinPath env.uploadFolder (base ++ ".pdf") ++ ".png" ≠
      joinPath (outputFolder env.uploadFolder) (base ++ ".md") := by
    intro h
    have hl := congrArg String.length h
    simp only [joinPath, outputFolder, String.length_append] at hl
    have e1 : (".pdf" : String).length = 4 := rfl
    have e2 : (".png" : String).length = 4 := rfl
    have e3 : ("converted" : String).length = 9 := rfl
    have e4 : (".md" : String).length = 3 := rfl
    have e5 : ("/" : String).length = 1 := rfl
    omega
  refine ⟨?_, ?_, ?_⟩
  · cases hR : env.rasterize (joinPath env.uploadFolder (base ++ ".pdf")) none with
    | nil =>
      simp [serve_converted_file, extract_markdown_from_pdf, he, hR, abortResult]
    | cons pg rest =>
      have htrace : (serve_converted_file env base
          { format := some "markdown", render := r, technique := some "easyocr_from_png" }).2 =
          [.rasterCall (joinPath env.uploadFolder (base ++ ".pdf")) none,
           .fileWrite (joinPath env.uploadFolder (base ++ ".pdf") ++ ".png") (.png pg),
           .fileWrite (joinPath (outputFolder env.uploadFolder) (base ++ ".md"))
             (.text (env.ocrConvert easyocrPipelineOptions
               (joinPath env.uploadFolder (base ++ ".pdf") ++ ".png")))] := by
        simp [serve_converted_file, extract_markdown_from_pdf, he, hR]
        split <;> simp
      refine ⟨htrace, ?_⟩
      rw [htrace]
      simp only [applyEffects, List.foldl, applyEffect]
      rw [if_neg hne]
      simp
  · simp only [joinPath]
    rw [String.append_assoc (env.uploadFolder ++ "/") (base ++ ".pdf") ".png",
      String.append_assoc base ".pdf" ".png"]
    exact rfl
  · intro h
    have hl := congrArg String.length h
    simp only [joinPath, outputFolder, String.length_append] at hl
    have e1 : (".pdf.png" : String).length = 8 := rfl
    have e2 : ("converted" : String).length = 9 := rfl
    have e3 : ("/" : String).length = 1 := rfl
    omega

/-- C10 witness: the theorem applied to the sample environment, whose
rasterizer yields one page with id 7. -/
theorem c10_witness :
    sampleEnv.fileExists (joinPath sampleEnv.uploadFolder ("report" ++ ".pdf")) = true ∧
    sampleEnv.rasterize (joinPath sampleEnv.uploadFolder ("report" ++ ".pdf")) none = 7 :: [] ∧
    (serve_converted_file sampleEnv "report"
      { format := some "markdown", render := none, technique := some "easyocr_from_png" }).2 =
      [.rasterCall (joinPath sampleEnv.uploadFolder ("report" ++ ".pdf")) none,
       .fileWrite (joinPath sampleEnv.uploadFolder ("report" ++ ".pdf") ++ ".png") (.png 7),
       .fileWrite (joinPath (outputFolder sampleEnv.uploadFolder) ("report" ++ ".md"))
         (.text (sampleEnv.ocrConvert easyocrPipelineOptions
           (joinPath sampleEnv.uploadFolder ("report" ++ ".pdf") ++ ".png")))] ∧
    applyEffects (serve_converted_file sampleEnv "report"
      { format := some "markdown", render := none, technique := some "easyocr_from_png" }).2
      (fun _ => none)
      (joinPath sampleEnv.uploadFolder ("report" ++ ".pdf") ++ ".png") = some (.png 7) ∧
    joinPath sampleEnv.uploadFolder ("report" ++ ".pdf.png") ≠
      joinPath (outputFolder sampleEnv.uploadFolder) ("report" ++ ".pdf.png") := by
  have h := c10_easyocr_from_png sampleEnv "report"
    { format := some "markdown", render := none, technique := some "easyocr_from_png" }
    rfl rfl rfl
  exact ⟨rfl, rfl, h.1.1, h.1.2, h.2.2⟩
